import Mathlib

/-!
Verification of the AWS connection-credential resolution engine
(`airflow.providers.amazon.aws.utils.connection_wrapper.AwsConnectionWrapper`)
against its natural-language specification.

The implementation module `connection_wrapper.py` is not among the visible
sources; only its unit-test file
`src/providers/amazon/tests/unit/amazon/aws/utils/test_connection_wrapper.py`
is. The definitions below are therefore modelled from the specification's
construction algorithm, except that wherever the unit tests pin a concrete
observable behaviour the tests take authority (they are repository code).
Python `dict`s are embedded as association lists; Python `None` as
`Option.none`; the spec's "field present" as `Option.isSome`.
-/

/-- A string-keyed mapping whose values are strings or explicit null,
modelling a leaf-level Python dict such as one service's configuration. -/
abbrev StrDict := List (String × Option String)

/-- Modelled from the spec: the provider-relevant fields of the stored
connection's "extra" mapping (nested extra-JSON fields) that the missing
`connection_wrapper.py` reads: credential keys, region, profile fields,
role/assume-role fields, per-service configuration, the global endpoint
URL and client-construction keyword overrides. An `Option.none` field
means the key is absent from the mapping. -/
structure ConnExtra where
  aws_access_key_id : Option String
  aws_secret_access_key : Option String
  aws_session_token : Option String
  region_name : Option String
  profile_name : Option String
  profile : Option String
  s3_config_file : Option String
  role_arn : Option String
  assume_role_method : Option String
  assume_role_kwargs : Option (List (String × String))
  external_id : Option String
  service_config : List (String × Option StrDict)
  endpoint_url : Option String
  config_kwargs : Option (List (String × String))
deriving Repr, DecidableEq

/-- The all-absent extra mapping. -/
def ConnExtra.empty : ConnExtra :=
  ⟨none, none, none, none, none, none, none, none, none, none, none, [], none, none⟩

/-- Modelled from the spec: the externally stored connection record
(`StoredConnection`); host and port are never read by the wrapper. -/
structure Connection where
  conn_id : Option String
  conn_type : Option String
  login : Option String
  password : Option String
  schema : Option String
  extra : ConnExtra
deriving Repr, DecidableEq

/-- Modelled from the spec: the client/service construction object
(`botocore.config.Config`), embedded as the keyword mapping it was built
from, with the literal string "unsigned" for `signature_version`
translated to the SDK's no-signature sentinel. -/
abbrev BotocoreConfig := List (String × String)

/-- The target SDK's "no signature" sentinel (`botocore.UNSIGNED`). -/
def UNSIGNED : String := "botocore-UNSIGNED-sentinel"

/-- Modelled from the spec: building the client-construction object from
the extra mapping's `config_kwargs` field, translating the literal value
"unsigned" of a signature-version sub-field to the sentinel. -/
def buildBotocoreConfig (kw : List (String × String)) : BotocoreConfig :=
  kw.map fun p =>
    if p.1 = "signature_version" && p.2 = "unsigned" then (p.1, UNSIGNED) else p

/-- Non-fatal configuration warnings emitted during resolution. -/
inductive ResolveWarning where
  | unexpectedConnType (got : String)
  | deprecatedProfileField
deriving Repr, DecidableEq

/-- Fatal resolution errors: the unsupported-value (NotImplementedError
class) error for an unrecognized assume-role method, carrying the source
field name and the offending value. -/
inductive ResolveError where
  | unsupportedAssumeRoleMethod (field value : String)
deriving Repr, DecidableEq

/-- The caller-visible message of a fatal resolution error; it names the
offending value and its source field. -/
def ResolveError.message : ResolveError → String
  | .unsupportedAssumeRoleMethod f v =>
      "Found " ++ f ++ "=" ++ v ++ " in connection extra. Currently " ++
        "assume_role, assume_role_with_saml, assume_role_with_web_identity are supported."

/-- Modelled from the spec: the immutable resolved configuration
(`AwsConnectionWrapper` / ResolvedConfig). `present` embeds Python
truthiness of the wrapper object. -/
structure AwsConnectionWrapper where
  present : Bool
  conn_id : Option String
  conn_type : Option String
  login : Option String
  password : Option String
  schema : Option String
  aws_access_key_id : Option String
  aws_secret_access_key : Option String
  aws_session_token : Option String
  region_name : Option String
  profile_name : Option String
  endpoint_url : Option String
  role_arn : Option String
  assume_role_method : Option String
  assume_role_kwargs : List (String × String)
  service_config : List (String × Option StrDict)
  botocore_config : Option BotocoreConfig
deriving Repr, DecidableEq

/-- The all-absent (falsy) resolved configuration, produced by a
resolution from a null source with no overrides. -/
def AwsConnectionWrapper.empty : AwsConnectionWrapper :=
  ⟨false, none, none, none, none, none, none, none, none, none, none, none,
    none, none, [], [], none⟩

/-- The fixed enumerated set of supported assume-role methods. -/
def supportedAssumeRoleMethods : List String :=
  ["assume_role", "assume_role_with_saml", "assume_role_with_web_identity"]

/-- Modelled from the spec: credential extraction
(`AwsConnectionWrapper._get_credentials`). Login/password take precedence
for access key id / secret key when both are present; otherwise
the same-named keys of the extra mapping are used. The session token is
read exclusively from the extra mapping's `aws_session_token` key. -/
def getCredentials (login password : Option String) (extra : ConnExtra) :
    Option String × Option String × Option String :=
  if login.isSome && password.isSome then
    (login, password, extra.aws_session_token)
  else
    (extra.aws_access_key_id, extra.aws_secret_access_key, extra.aws_session_token)

/-- Modelled from the spec: assume-role extraction
(`AwsConnectionWrapper._get_assume_role_configs`). Only meaningful when
`role_arn` is present; the method defaults to "assume_role" and must be in
the supported set, else the unsupported-value error is raised. The
keyword mapping comes from `assume_role_kwargs` (default empty); per the
unit test `test_get_assume_role_kwargs_external_id_in_kwargs`, the
top-level `external_id` is injected under key "ExternalId" only when that
key is not already present in the nested mapping (the nested value wins,
which corrects the spec prose here). -/
def getAssumeRoleConfigs (extra : ConnExtra) :
    Except ResolveError (Option String × Option String × List (String × String)) :=
  match extra.role_arn with
  | none => Except.ok (none, none, [])
  | some arn =>
    let method := extra.assume_role_method.getD "assume_role"
    if method ∈ supportedAssumeRoleMethods then
      let kwargs := extra.assume_role_kwargs.getD []
      let kwargs :=
        match kwargs.lookup "ExternalId", extra.external_id with
        | none, some eid => kwargs ++ [("ExternalId", eid)]
        | _, _ => kwargs
      Except.ok (some arn, some method, kwargs)
    else
      Except.error (ResolveError.unsupportedAssumeRoleMethod "assume_role_method" method)

/-- Override-wins precedence: the override value if present, else the
inherited value. -/
def overrideOr (o v : Option α) : Option α :=
  match o with
  | some x => some x
  | none => v

/-- Modelled from the spec: building the resolved configuration from a
stored connection plus optional region / client-config overrides
(construction algorithm step 2). conn_id is kept verbatim; conn_type
defaults to "aws" when absent, and a differing type only emits a warning;
the explicit region override wins over the extra mapping's region field;
profile name comes from `profile_name` (a legacy `profile` field without
`s3_config_file` only warns); the per-service config and the global
endpoint URL are copied verbatim; the client-config override wins over a
config built from `config_kwargs`. -/
def resolveFromConn (c : Connection) (region : Option String)
    (config : Option BotocoreConfig) :
    Except ResolveError (AwsConnectionWrapper × List ResolveWarning) :=
  let conn_type := some (c.conn_type.getD "aws")
  let typeWarnings :=
    match conn_type with
    | some t => if t = "aws" then [] else [ResolveWarning.unexpectedConnType t]
    | none => []
  let profileWarnings :=
    if c.extra.profile.isSome && c.extra.s3_config_file.isNone then
      [ResolveWarning.deprecatedProfileField]
    else []
  let creds := getCredentials c.login c.password c.extra
  match getAssumeRoleConfigs c.extra with
  | Except.error e => Except.error e
  | Except.ok (arn, method, arKwargs) =>
    Except.ok
      ({ present := true
         conn_id := c.conn_id
         conn_type := conn_type
         login := c.login
         password := c.password
         schema := c.schema
         aws_access_key_id := creds.1
         aws_secret_access_key := creds.2.1
         aws_session_token := creds.2.2
         region_name := overrideOr region c.extra.region_name
         profile_name := c.extra.profile_name
         endpoint_url := c.extra.endpoint_url
         role_arn := arn
         assume_role_method := method
         assume_role_kwargs := arKwargs
         service_config := c.extra.service_config
         botocore_config :=
           match config with
           | some cf => some cf
           | none =>
             match c.extra.config_kwargs with
             | some kw => if kw.isEmpty then none else some (buildBotocoreConfig kw)
             | none => none },
       typeWarnings ++ profileWarnings)

/-- Modelled from the spec: wrapping a previously resolved configuration
(construction algorithm step 1): every non-override-eligible field is
copied verbatim from the prior object; only region and the client-config
object apply override-wins precedence. -/
def resolveFromWrapper (w : AwsConnectionWrapper) (region : Option String)
    (config : Option BotocoreConfig) : AwsConnectionWrapper :=
  { w with
    region_name := overrideOr region w.region_name
    botocore_config := overrideOr config w.botocore_config }

/-- The source of a resolution: a stored connection, a previously
resolved configuration, or absent (Python `conn=None`). -/
inductive Source where
  | conn (c : Connection)
  | wrapper (w : AwsConnectionWrapper)
  | absent
deriving Repr

/-- Modelled from the spec: the full resolver (`AwsConnectionWrapper`
construction). An absent source builds the configuration purely from the
explicit overrides, and the result counts as present iff it was built
from a non-null stored connection or at least one explicit override. -/
def resolve (src : Source) (region : Option String)
    (config : Option BotocoreConfig) :
    Except ResolveError (AwsConnectionWrapper × List ResolveWarning) :=
  match src with
  | Source.conn c => resolveFromConn c region config
  | Source.wrapper w => Except.ok (resolveFromWrapper w region config, [])
  | Source.absent =>
    Except.ok
      ({ AwsConnectionWrapper.empty with
         present := region.isSome || config.isSome
         region_name := region
         botocore_config := config }, [])

/-- Modelled from the spec: `get_service_config(service_name)` returns
`service_config[service_name]` when the key exists — including an
explicit null value, returned as `Option.none` — and an empty mapping
(`some []`) when the key is absent. -/
def AwsConnectionWrapper.get_service_config (w : AwsConnectionWrapper)
    (service : String) : Option StrDict :=
  match w.service_config.lookup service with
  | some v => v
  | none => some []

/-- The conflicting-request (invalid-argument) error: both STS
disambiguation flags set on an endpoint lookup. -/
inductive EndpointError where
  | conflictingStsFlags
deriving Repr, DecidableEq

/-- Modelled from the spec: `get_service_endpoint_url`. The per-service
`endpoint_url` key wins, even when its value is the explicit
no-endpoint sentinel (null). Per the unit test
`test_get_service_endpoint_url_sts` (ids "global-only" and "not-set"),
an STS lookup with one of the flags set does NOT fall back to the global
endpoint_url (which corrects the spec prose here); both flags set on an
STS lookup is the conflicting-request error; for any other service the
global endpoint_url is the unconditional fallback. -/
def AwsConnectionWrapper.get_service_endpoint_url (w : AwsConnectionWrapper)
    (service : String) (sts_connection_assume sts_test_connection : Bool) :
    Except EndpointError (Option String) :=
  let svc := (w.get_service_config service).getD []
  if service = "sts" && (sts_connection_assume || sts_test_connection) then
    if sts_connection_assume && sts_test_connection then
      Except.error EndpointError.conflictingStsFlags
    else
      Except.ok ((svc.lookup "endpoint_url").getD none)
  else
    Except.ok ((svc.lookup "endpoint_url").getD w.endpoint_url)

/-- Modelled from the spec: the generic client-construction/session
keyword mapping (`session_kwargs`), rebuilt from the scalar credential,
region and profile fields on every retrieval, omitting absent values. -/
def AwsConnectionWrapper.session_kwargs (w : AwsConnectionWrapper) :
    List (String × String) :=
  (([("aws_access_key_id", w.aws_access_key_id),
     ("aws_secret_access_key", w.aws_secret_access_key),
     ("aws_session_token", w.aws_session_token),
     ("profile_name", w.profile_name),
     ("region_name", w.region_name)] : List (String × Option String)).filterMap
    fun p => p.2.map fun v => (p.1, v))

/-- The resolved configuration of a successful resolution result (the
empty configuration for a failed one); lets closed theorems name the
wrapper a concrete resolution produces. -/
def wrapperOf (r : Except ResolveError (AwsConnectionWrapper × List ResolveWarning)) :
    AwsConnectionWrapper :=
  match r with
  | Except.ok (w, _) => w
  | Except.error _ => AwsConnectionWrapper.empty

/-- The warnings of a successful resolution result. -/
def warningsOf (r : Except ResolveError (AwsConnectionWrapper × List ResolveWarning)) :
    List ResolveWarning :=
  match r with
  | Except.ok (_, ws) => ws
  | Except.error _ => []

/-- Whether an endpoint lookup succeeded. -/
def endpointOk (r : Except EndpointError (Option String)) : Bool :=
  match r with
  | Except.ok _ => true
  | Except.error _ => false

/-- Whether a resolution succeeded. -/
def resolveOk (r : Except ResolveError (AwsConnectionWrapper × List ResolveWarning)) : Bool :=
  match r with
  | Except.ok _ => true
  | Except.error _ => false

lemma lookup_append_of_none {β : Type} (l₁ l₂ : List (String × β)) (k : String)
    (h : l₁.lookup k = none) : (l₁ ++ l₂).lookup k = l₂.lookup k := by
  induction l₁ with
  | nil => rfl
  | cons p l ih =>
    obtain ⟨k', v⟩ := p
    cases hk : (k == k') with
    | true => simp [List.lookup, hk] at h
    | false =>
      simp only [List.lookup, hk] at h
      simpa [List.lookup, hk] using ih h

lemma resolveFromConn_ok_fields (c : Connection) (region : Option String)
    (config : Option BotocoreConfig) (w : AwsConnectionWrapper)
    (ws : List ResolveWarning)
    (h : resolveFromConn c region config = Except.ok (w, ws)) :
    w.present = true ∧
    w.conn_id = c.conn_id ∧
    w.conn_type = some (c.conn_type.getD "aws") ∧
    w.login = c.login ∧
    w.password = c.password ∧
    w.aws_access_key_id = (getCredentials c.login c.password c.extra).1 ∧
    w.aws_secret_access_key = (getCredentials c.login c.password c.extra).2.1 ∧
    w.aws_session_token = (getCredentials c.login c.password c.extra).2.2 ∧
    w.region_name = overrideOr region c.extra.region_name ∧
    w.profile_name = c.extra.profile_name ∧
    w.endpoint_url = c.extra.endpoint_url ∧
    w.service_config = c.extra.service_config ∧
    getAssumeRoleConfigs c.extra =
      Except.ok (w.role_arn, w.assume_role_method, w.assume_role_kwargs) ∧
    ws = (if c.conn_type.getD "aws" = "aws" then []
          else [ResolveWarning.unexpectedConnType (c.conn_type.getD "aws")]) ++
         (if c.extra.profile.isSome && c.extra.s3_config_file.isNone then
            [ResolveWarning.deprecatedProfileField]
          else []) := by
  unfold resolveFromConn at h
  cases hg : getAssumeRoleConfigs c.extra with
  | error e =>
    rw [hg] at h
    exact absurd h (by simp)
  | ok v =>
    obtain ⟨arn, method, arKwargs⟩ := v
    rw [hg] at h
    simp only [Except.ok.injEq, Prod.mk.injEq] at h
    obtain ⟨hw, hws⟩ := h
    subst hw
    subst hws
    exact ⟨rfl, rfl, rfl, rfl, rfl, rfl, rfl, rfl, rfl, rfl, rfl, rfl, rfl, rfl⟩

lemma resolveFromConn_error_of (c : Connection) (region : Option String)
    (config : Option BotocoreConfig) (e : ResolveError)
    (hg : getAssumeRoleConfigs c.extra = Except.error e) :
    resolveFromConn c region config = Except.error e := by
  unfold resolveFromConn
  rw [hg]

/-- C1: for every stored connection, when both login and password are
present the resolved access key id and secret key come from them (even if
the extra mapping also carries the same-named credential keys); when
login and password are absent they come from the extra mapping's
same-named keys; and the resolved session token always equals the extra
mapping's `aws_session_token` value (absent when that key is absent),
never anything derived from login/password. -/
theorem credentials_resolution (c : Connection) (region : Option String)
    (config : Option BotocoreConfig) (w : AwsConnectionWrapper)
    (ws : List ResolveWarning)
    (h : resolveFromConn c region config = Except.ok (w, ws)) :
    (c.login.isSome = true → c.password.isSome = true →
      w.aws_access_key_id = c.login ∧ w.aws_secret_access_key = c.password) ∧
    (c.login = none → c.password = none →
      w.aws_access_key_id = c.extra.aws_access_key_id ∧
      w.aws_secret_access_key = c.extra.aws_secret_access_key) ∧
    w.aws_session_token = c.extra.aws_session_token := by
  obtain ⟨-, -, -, -, -, hak, hsk, htok, -⟩ := resolveFromConn_ok_fields c region config w ws h
  refine ⟨?_, ?_, ?_⟩
  · intro hl hp
    rw [hak, hsk]
    simp [getCredentials, hl, hp]
  · intro hl hp
    rw [hak, hsk]
    simp [getCredentials, hl, hp]
  · rw [htok]
    unfold getCredentials
    cases hl : c.login.isSome && c.password.isSome <;> simp [hl]

/-- Concrete instance of `credentials_resolution`, mirroring
`test_get_credentials_from_login`: login/password plus same-named extra
keys and an extra session token. -/
def credsConn : Connection :=
  { conn_id := some "mock-conn-id"
    conn_type := some "aws"
    login := some "mock-aws-access-key-id"
    password := some "mock-aws-secret-access-key"
    schema := none
    extra := { ConnExtra.empty with
      aws_access_key_id := some "extra-access-key-id"
      aws_secret_access_key := some "extra-secret-access-key"
      aws_session_token := some "mock-aws-session-token" } }

/-- Witness for `credentials_resolution` at a concrete connection. -/
theorem credentials_resolution_witness :
    (wrapperOf (resolveFromConn credsConn none none)).aws_access_key_id =
      some "mock-aws-access-key-id" ∧
    (wrapperOf (resolveFromConn credsConn none none)).aws_session_token =
      some "mock-aws-session-token" := by
  have h := credentials_resolution credsConn none none
    (wrapperOf (resolveFromConn credsConn none none))
    (warningsOf (resolveFromConn credsConn none none)) (by rfl)
  exact ⟨(h.1 (by decide) (by decide)).1, h.2.2⟩

/-- C4: calling `get_service_endpoint_url` with both STS flags set raises
the conflicting-request error when the service is "sts", and succeeds for
every non-STS service name. -/
theorem sts_conflicting_flags (w : AwsConnectionWrapper) (s : String) :
    w.get_service_endpoint_url "sts" true true =
      Except.error EndpointError.conflictingStsFlags ∧
    (s ≠ "sts" → endpointOk (w.get_service_endpoint_url s true true) = true) := by
  constructor
  · simp [AwsConnectionWrapper.get_service_endpoint_url]
  · intro hs
    simp [AwsConnectionWrapper.get_service_endpoint_url, hs, endpointOk]

/-- Witness for `sts_conflicting_flags` at the empty configuration and
the non-STS service "s3". -/
theorem sts_conflicting_flags_witness :
    AwsConnectionWrapper.get_service_endpoint_url AwsConnectionWrapper.empty
      "sts" true true = Except.error EndpointError.conflictingStsFlags ∧
    endpointOk (AwsConnectionWrapper.get_service_endpoint_url
      AwsConnectionWrapper.empty "s3" true true) = true := by
  have h := sts_conflicting_flags AwsConnectionWrapper.empty "s3"
  exact ⟨h.1, h.2 (by decide)⟩

/-- C5: wrapping a previously resolved configuration copies every
non-override-eligible field (credentials, session token, role ARN,
assume-role method and kwargs, per-service config map, conn_id,
conn_type, profile name, presence, login/password, endpoint URL)
verbatim from the prior configuration, while region and the client-config
object follow override-wins precedence (the override when given, else
the prior value). -/
theorem wrap_wrapper_frame (w : AwsConnectionWrapper) (region : Option String)
    (config : Option BotocoreConfig) :
    (wrapperOf (resolve (Source.wrapper w) region config)).aws_access_key_id =
        w.aws_access_key_id ∧
    (wrapperOf (resolve (Source.wrapper w) region config)).aws_secret_access_key =
        w.aws_secret_access_key ∧
    (wrapperOf (resolve (Source.wrapper w) region config)).aws_session_token =
        w.aws_session_token ∧
    (wrapperOf (resolve (Source.wrapper w) region config)).role_arn = w.role_arn ∧
    (wrapperOf (resolve (Source.wrapper w) region config)).assume_role_method =
        w.assume_role_method ∧
    (wrapperOf (resolve (Source.wrapper w) region config)).assume_role_kwargs =
        w.assume_role_kwargs ∧
    (wrapperOf (resolve (Source.wrapper w) region config)).service_config =
        w.service_config ∧
    (wrapperOf (resolve (Source.wrapper w) region config)).conn_id = w.conn_id ∧
    (wrapperOf (resolve (Source.wrapper w) region config)).conn_type = w.conn_type ∧
    (wrapperOf (resolve (Source.wrapper w) region config)).profile_name =
        w.profile_name ∧
    (wrapperOf (resolve (Source.wrapper w) region config)).present = w.present ∧
    (wrapperOf (resolve (Source.wrapper w) region config)).login = w.login ∧
    (wrapperOf (resolve (Source.wrapper w) region config)).password = w.password ∧
    (wrapperOf (resolve (Source.wrapper w) region config)).endpoint_url =
        w.endpoint_url ∧
    (wrapperOf (resolve (Source.wrapper w) region config)).region_name =
        overrideOr region w.region_name ∧
    (wrapperOf (resolve (Source.wrapper w) region config)).botocore_config =
        overrideOr config w.botocore_config :=
  ⟨rfl, rfl, rfl, rfl, rfl, rfl, rfl, rfl, rfl, rfl, rfl, rfl, rfl, rfl, rfl, rfl⟩

/-- C6: for every configuration resolved from a stored connection and
every service name, `get_service_config` returns the exact stored value
of the connection's `service_config` entry when the key exists — an
explicit null value is returned as null — and returns an empty mapping
when the key is absent; a null result occurs exactly for an explicitly
null stored entry, so null-valued and absent keys are distinguishable. -/
theorem service_config_lookup (c : Connection) (region : Option String)
    (config : Option BotocoreConfig) (w : AwsConnectionWrapper)
    (ws : List ResolveWarning)
    (h : resolveFromConn c region config = Except.ok (w, ws)) (s : String) :
    (c.extra.service_config.lookup s = none →
      w.get_service_config s = some []) ∧
    (∀ v, c.extra.service_config.lookup s = some v →
      w.get_service_config s = v) ∧
    (w.get_service_config s = none ↔
      c.extra.service_config.lookup s = some none) := by
  obtain ⟨-, -, -, -, -, -, -, -, -, -, -, hsc, -⟩ :=
    resolveFromConn_ok_fields c region config w ws h
  unfold AwsConnectionWrapper.get_service_config
  rw [hsc]
  cases hl : c.extra.service_config.lookup s with
  | none => simp
  | some v => cases v <;> simp

/-- Concrete connection for the `service_config_lookup` witness,
mirroring `test_get_service_config`: a present entry, an explicitly null
entry, and an absent key. -/
def svcConn : Connection :=
  { conn_id := some "foo-bar"
    conn_type := some "aws"
    login := none
    password := none
    schema := none
    extra := { ConnExtra.empty with
      service_config :=
        [("sns", some [("foo", some "bar")]),
         ("s3", some [("spam", some "egg"), ("baz", some "qux")]),
         ("dynamodb", none)] } }

/-- Witness for `service_config_lookup` at a concrete connection: the
absent key "ec2" yields the empty mapping and the explicitly null key
"dynamodb" yields null. -/
theorem service_config_lookup_witness :
    (wrapperOf (resolveFromConn svcConn none none)).get_service_config "ec2" =
      some [] ∧
    (wrapperOf (resolveFromConn svcConn none none)).get_service_config "dynamodb" =
      none := by
  have h2 := service_config_lookup svcConn none none
    (wrapperOf (resolveFromConn svcConn none none))
    (warningsOf (resolveFromConn svcConn none none)) (by rfl) "ec2"
  have h3 := service_config_lookup svcConn none none
    (wrapperOf (resolveFromConn svcConn none none))
    (warningsOf (resolveFromConn svcConn none none)) (by rfl) "dynamodb"
  exact ⟨h2.1 (by decide), h3.2.1 none (by decide)⟩

lemma getAssumeRoleConfigs_supported (extra : ConnExtra) (arn : String)
    (harn : extra.role_arn = some arn)
    (hmem : extra.assume_role_method.getD "assume_role" ∈ supportedAssumeRoleMethods) :
    getAssumeRoleConfigs extra =
      Except.ok (some arn, some (extra.assume_role_method.getD "assume_role"),
        match (extra.assume_role_kwargs.getD []).lookup "ExternalId",
              extra.external_id with
        | none, some eid => extra.assume_role_kwargs.getD [] ++ [("ExternalId", eid)]
        | _, _ => extra.assume_role_kwargs.getD []) := by
  unfold getAssumeRoleConfigs
  rw [harn]
  simp [hmem]

/-- C7: for every stored connection whose extra mapping has `role_arn`
present: an unspecified assume-role method resolves to "assume_role"; a
supplied method from the supported set is kept; and any other supplied
method makes resolution fail with the unsupported-value
(NotImplementedError-class) error whose message names the offending
value and its source field `assume_role_method`. -/
theorem assume_role_method_resolution (c : Connection) (region : Option String)
    (config : Option BotocoreConfig) (arn : String)
    (harn : c.extra.role_arn = some arn) :
    (c.extra.assume_role_method = none →
      (wrapperOf (resolveFromConn c region config)).assume_role_method =
        some "assume_role") ∧
    (∀ m, c.extra.assume_role_method = some m →
      m ∈ supportedAssumeRoleMethods →
      (wrapperOf (resolveFromConn c region config)).assume_role_method = some m) ∧
    (∀ m, c.extra.assume_role_method = some m →
      m ∉ supportedAssumeRoleMethods →
      resolveFromConn c region config =
        Except.error
          (ResolveError.unsupportedAssumeRoleMethod "assume_role_method" m) ∧
      (ResolveError.unsupportedAssumeRoleMethod "assume_role_method" m).message =
        "Found " ++ "assume_role_method" ++ "=" ++ m ++
          " in connection extra. Currently " ++
          "assume_role, assume_role_with_saml, assume_role_with_web_identity are supported.") := by
  refine ⟨?_, ?_, ?_⟩
  · intro hm
    have hg := getAssumeRoleConfigs_supported c.extra arn harn
      (by simp [hm, supportedAssumeRoleMethods])
    unfold wrapperOf resolveFromConn
    rw [hg]
    simp [hm]
  · intro m hm hmem
    have hg := getAssumeRoleConfigs_supported c.extra arn harn
      (by simpa [hm] using hmem)
    unfold wrapperOf resolveFromConn
    rw [hg]
    simp [hm]
  · intro m hm hmem
    refine ⟨?_, rfl⟩
    apply resolveFromConn_error_of
    unfold getAssumeRoleConfigs
    rw [harn]
    simp [hm, hmem]

/-- Concrete connection for the `assume_role_method_resolution` witness:
role ARN present, method unspecified. -/
def roleConn : Connection :=
  { conn_id := some "mock-conn-id"
    conn_type := some "aws"
    login := none
    password := none
    schema := none
    extra := { ConnExtra.empty with
      role_arn := some "arn:aws:iam::222222222222:role/awesome-role" } }

/-- Witness for `assume_role_method_resolution`: with a role ARN and no
method the resolved method is "assume_role", and the unsupported method
"dummy_method" would make resolution fail. -/
theorem assume_role_method_resolution_witness :
    (wrapperOf (resolveFromConn roleConn none none)).assume_role_method =
      some "assume_role" ∧
    resolveFromConn
      { roleConn with extra := { roleConn.extra with
          assume_role_method := some "dummy_method" } } none none =
      Except.error
        (ResolveError.unsupportedAssumeRoleMethod "assume_role_method"
          "dummy_method") := by
  have h1 := assume_role_method_resolution roleConn none none
    "arn:aws:iam::222222222222:role/awesome-role" (by decide)
  have h2 := assume_role_method_resolution
    { roleConn with extra := { roleConn.extra with
        assume_role_method := some "dummy_method" } } none none
    "arn:aws:iam::222222222222:role/awesome-role" (by decide)
  exact ⟨h1.1 (by decide),
    (h2.2.2 "dummy_method" (by decide) (by decide)).1⟩

/-- C8: a resolved configuration is present (truthy) iff it was built
from a non-null stored connection or from at least one explicit override:
any successful resolution from a stored connection is present, and a
resolution from a null source is present exactly when a region or
client-config override was given (so an all-absent resolution is
empty/falsy). -/
theorem wrapper_presence (c : Connection) (region : Option String)
    (config : Option BotocoreConfig) (w : AwsConnectionWrapper)
    (ws : List ResolveWarning)
    (h : resolve (Source.conn c) region config = Except.ok (w, ws)) :
    w.present = true ∧
    ((wrapperOf (resolve Source.absent region config)).present = true ↔
      (region.isSome = true ∨ config.isSome = true)) := by
  constructor
  · exact (resolveFromConn_ok_fields c region config w ws h).1
  · unfold wrapperOf resolve
    simp [Bool.or_eq_true]

/-- Witness for `wrapper_presence`: a resolution from a concrete stored
connection is present, and the all-absent resolution is empty. -/
theorem wrapper_presence_witness :
    (wrapperOf (resolveFromConn roleConn none none)).present = true ∧
    ((wrapperOf (resolve Source.absent (none : Option String)
        (none : Option BotocoreConfig))).present = true ↔
      ((none : Option String).isSome = true ∨
       (none : Option BotocoreConfig).isSome = true)) := by
  have h := wrapper_presence roleConn none none
    (wrapperOf (resolveFromConn roleConn none none))
    (warningsOf (resolveFromConn roleConn none none)) (by rfl)
  exact h

/-- C10: for every stored connection resolved successfully, an absent
conn_type resolves to the expected provider type "aws", while a present
conn_type is kept verbatim even when it differs from "aws", in which case
only the unexpected-connection-type warning is emitted. -/
theorem conn_type_resolution (c : Connection) (region : Option String)
    (config : Option BotocoreConfig) (w : AwsConnectionWrapper)
    (ws : List ResolveWarning)
    (h : resolveFromConn c region config = Except.ok (w, ws)) :
    (c.conn_type = none → w.conn_type = some "aws") ∧
    (∀ t, c.conn_type = some t → w.conn_type = some t) ∧
    (∀ t, c.conn_type = some t → t ≠ "aws" →
      ResolveWarning.unexpectedConnType t ∈ ws) := by
  obtain ⟨-, -, hct, -, -, -, -, -, -, -, -, -, -, hws⟩ :=
    resolveFromConn_ok_fields c region config w ws h
  refine ⟨?_, ?_, ?_⟩
  · intro ht
    rw [hct, ht]
    rfl
  · intro t ht
    rw [hct, ht]
    rfl
  · intro t ht hne
    subst hws
    rw [ht]
    simp [hne]

/-- Witness for `conn_type_resolution`: the connection type "boto3" is
kept verbatim and the unexpected-connection-type warning is emitted. -/
theorem conn_type_resolution_witness :
    (wrapperOf (resolveFromConn { roleConn with conn_type := some "boto3" }
        none none)).conn_type = some "boto3" ∧
    ResolveWarning.unexpectedConnType "boto3" ∈
      warningsOf (resolveFromConn { roleConn with conn_type := some "boto3" }
        none none) := by
  have h := conn_type_resolution { roleConn with conn_type := some "boto3" }
    none none
    (wrapperOf (resolveFromConn { roleConn with conn_type := some "boto3" }
      none none))
    (warningsOf (resolveFromConn { roleConn with conn_type := some "boto3" }
      none none)) (by rfl)
  exact ⟨h.2.1 "boto3" (by decide),
    h.2.2 "boto3" (by decide) (by decide)⟩

/-- Concrete connection mirroring
`test_get_assume_role_kwargs_external_id_in_kwargs`: a nested
"ExternalId" entry inside `assume_role_kwargs` together with a top-level
`external_id` field. -/
def externalIdConn : Connection :=
  { conn_id := some "mock-conn-id"
    conn_type := some "aws"
    login := none
    password := none
    schema := none
    extra := { ConnExtra.empty with
      role_arn := some "arn:aws:iam::222222222222:role/awesome-role"
      assume_role_kwargs := some [("ExternalId", "mock-external-id-in-kwargs")]
      external_id := some "mock-external-id-in-extra" } }

/-- Counterexample to C2 as stated: with a nested "ExternalId" of
"mock-external-id-in-kwargs" and a top-level external_id of
"mock-external-id-in-extra", the resolved assume-role keyword mapping
keeps the nested value — it does not equal the top-level external_id, so
the top-level field does not overwrite the nested value. -/
theorem external_id_overwrite_counterexample :
    (wrapperOf (resolveFromConn externalIdConn none none)).assume_role_kwargs.lookup
      "ExternalId" = some "mock-external-id-in-kwargs" ∧
    (wrapperOf (resolveFromConn externalIdConn none none)).assume_role_kwargs.lookup
      "ExternalId" ≠ some "mock-external-id-in-extra" := by
  constructor
  · rfl
  · decide

/-- C2 (amended): for every stored connection with `role_arn` present and
a supported (or unspecified) assume-role method, a nested "ExternalId"
entry of `assume_role_kwargs` is kept in the resolved mapping — the
nested value wins — and the top-level `external_id` is injected under
"ExternalId" only when the nested mapping carries no such entry. -/
theorem external_id_resolution (c : Connection) (region : Option String)
    (config : Option BotocoreConfig) (arn : String)
    (harn : c.extra.role_arn = some arn)
    (hmem : c.extra.assume_role_method.getD "assume_role" ∈
      supportedAssumeRoleMethods) :
    (∀ v, (c.extra.assume_role_kwargs.getD []).lookup "ExternalId" = some v →
      (wrapperOf (resolveFromConn c region config)).assume_role_kwargs.lookup
        "ExternalId" = some v) ∧
    (∀ eid, (c.extra.assume_role_kwargs.getD []).lookup "ExternalId" = none →
      c.extra.external_id = some eid →
      (wrapperOf (resolveFromConn c region config)).assume_role_kwargs.lookup
        "ExternalId" = some eid) := by
  have hg := getAssumeRoleConfigs_supported c.extra arn harn hmem
  constructor
  · intro v hv
    unfold wrapperOf resolveFromConn
    rw [hg]
    simp only [hv]
  · intro eid hnone heid
    unfold wrapperOf resolveFromConn
    rw [hg]
    simp only [hnone, heid]
    rw [lookup_append_of_none _ _ _ hnone]
    rfl

/-- Witness for `external_id_resolution` at a concrete connection with a
nested "ExternalId" entry and a top-level external_id: the nested value
is kept. -/
theorem external_id_resolution_witness :
    (wrapperOf (resolveFromConn externalIdConn none none)).assume_role_kwargs.lookup
      "ExternalId" = some "mock-external-id-in-kwargs" := by
  have h := external_id_resolution externalIdConn none none
    "arn:aws:iam::222222222222:role/awesome-role" (by decide)
    (by decide)
  exact h.1 "mock-external-id-in-kwargs" (by decide)

/-- Concrete connection mirroring the id "global-only" case of
`test_get_service_endpoint_url_sts`: a global endpoint_url and no
per-service "sts" entry. -/
def globalEndpointConn : Connection :=
  { conn_id := some "foo-bar"
    conn_type := some "aws"
    login := none
    password := none
    schema := none
    extra := { ConnExtra.empty with
      endpoint_url := some "https://global.service" } }

/-- Counterexample to C3 as stated: on a configuration whose global
endpoint_url is "https://global.service" and whose service_config has no
"sts" entry, an STS lookup with exactly one STS flag set returns the
absent endpoint, not the global endpoint_url. -/
theorem sts_global_fallback_counterexample :
    (wrapperOf (resolveFromConn globalEndpointConn none none)).endpoint_url =
      some "https://global.service" ∧
    (wrapperOf (resolveFromConn globalEndpointConn none none)).get_service_endpoint_url
      "sts" true false = Except.ok none ∧
    (wrapperOf (resolveFromConn globalEndpointConn none none)).get_service_endpoint_url
      "sts" false true = Except.ok none ∧
    (Except.ok (none : Option String) : Except EndpointError (Option String)) ≠
      Except.ok (some "https://global.service") := by
  refine ⟨rfl, rfl, rfl, by simp⟩

/-- C3 (amended): for every resolved configuration whose per-service
"sts" entry carries no endpoint_url key, an STS lookup with exactly one
of the two STS flags set returns the absent endpoint: the top-level
global endpoint_url is never used as a fallback for STS-flagged lookups
(it is only used for non-flagged or non-STS lookups). -/
theorem sts_flagged_no_global_fallback (w : AwsConnectionWrapper)
    (a t : Bool) (hx : Bool.xor a t = true)
    (hsvc : ((w.get_service_config "sts").getD []).lookup "endpoint_url" = none) :
    w.get_service_endpoint_url "sts" a t = Except.ok none := by
  cases a <;> cases t
  · exact absurd hx (by decide)
  · simp [AwsConnectionWrapper.get_service_endpoint_url, hsvc]
  · simp [AwsConnectionWrapper.get_service_endpoint_url, hsvc]
  · exact absurd hx (by decide)

/-- Witness for `sts_flagged_no_global_fallback` at the configuration
resolved from `globalEndpointConn` with the assume flag set. -/
theorem sts_flagged_no_global_fallback_witness :
    Bool.xor true false = true ∧
    (wrapperOf (resolveFromConn globalEndpointConn none none)).get_service_endpoint_url
      "sts" true false = Except.ok none :=
  ⟨by decide,
    sts_flagged_no_global_fallback
      (wrapperOf (resolveFromConn globalEndpointConn none none)) true false
      (by decide) (by decide)⟩

/-- Modelled from the spec: the observable state of a caller interacting
with one resolved configuration: the configuration's internal state and
the session keyword mappings handed out to the caller so far. Because
`session_kwargs` is rebuilt from the scalar fields on every retrieval (a
defensive copy), a handed-out mapping is an independent value, which this
state type makes explicit. -/
structure CallerView where
  internal : AwsConnectionWrapper
  handed : List (List (String × String))
deriving Repr, DecidableEq

/-- Retrieving the session keyword mapping: a fresh copy is built from
the configuration's fields and handed to the caller; the internal state
is untouched. -/
def getSessionKwargsOp (s : CallerView) : CallerView × List (String × String) :=
  ({ s with handed := s.handed ++ [s.internal.session_kwargs] },
    s.internal.session_kwargs)

/-- The caller mutates the handed-out mapping at position `i` in place
with an arbitrary update `f`; only that caller-owned copy changes. -/
def mutateHandedOp (s : CallerView) (i : Nat)
    (f : List (String × String) → List (String × String)) : CallerView :=
  { s with handed := s.handed.set i (f (s.handed.getD i [])) }

/-- C9: the session keyword mapping returned to a caller is a defensive
copy: for every resolved configuration and every in-place mutation the
caller applies to the mapping it received, a second retrieval still
returns the original contents and the configuration's internal state is
unchanged. -/
theorem session_kwargs_defensive_copy (w : AwsConnectionWrapper)
    (handed0 : List (List (String × String)))
    (f : List (String × String) → List (String × String)) :
    (getSessionKwargsOp (mutateHandedOp
        (getSessionKwargsOp ⟨w, handed0⟩).1 handed0.length f)).2 =
      (getSessionKwargsOp ⟨w, handed0⟩).2 ∧
    (getSessionKwargsOp (mutateHandedOp
        (getSessionKwargsOp ⟨w, handed0⟩).1 handed0.length f)).1.internal = w :=
  ⟨rfl, rfl⟩
